import Mathlib

/-!
Verification of the alignment engine core in
`libs/indibase/alignment/BasicMathPlugin.cpp`.

The source is shallowly embedded over exact rationals (`ℚ`), the usual
idealisation of IEEE doubles for control-flow and algebraic claims.
External collaborators that the source file only calls — the libnova
coordinate conversions, the convex-hull construction library, the system
clock — are, as the specification prescribes, treated as trusted opaque
functions: they are fields of an `Env` record that parameterises the
whole development.  Everything that the source file itself computes
(`Initialise`, both transform queries, the Möller–Trumbore test, the
3×3 kernel, the nearest-point map) is translated definitionally below.
-/

namespace BasicMathPlugin

/-- Direction cosines: a 3-vector of exact scalars.  The C++
`TelescopeDirectionVector` lives in an alignment-subsystem header that is
not among the provided sources; its component algebra is modelled from the
spec (§4.A). -/
structure TelescopeDirectionVector where
  x : ℚ
  y : ℚ
  z : ℚ
deriving DecidableEq

namespace TelescopeDirectionVector

/-- Modelled from the spec: component-wise subtraction (§4.A). -/
def sub (a b : TelescopeDirectionVector) : TelescopeDirectionVector :=
  ⟨a.x - b.x, a.y - b.y, a.z - b.z⟩

/-- Modelled from the spec: cross product (§4.A); the source writes it as
the binary `*` operator on direction vectors. -/
def cross (a b : TelescopeDirectionVector) : TelescopeDirectionVector :=
  ⟨a.y * b.z - a.z * b.y, a.z * b.x - a.x * b.z, a.x * b.y - a.y * b.x⟩

/-- Modelled from the spec: dot product (§4.A); the source writes it as
the binary `^` operator on direction vectors. -/
def dot (a b : TelescopeDirectionVector) : ℚ :=
  a.x * b.x + a.y * b.y + a.z * b.z

/-- Modelled from the spec: multiplication by a scalar (§4.A); the source
writes `Vector * 2.0`. -/
def smul (a : TelescopeDirectionVector) (s : ℚ) : TelescopeDirectionVector :=
  ⟨a.x * s, a.y * s, a.z * s⟩

/-- Component-wise negation, used by the source as
`TelescopeDirectionVector T(-V.x, -V.y, -V.z)`. -/
def neg (a : TelescopeDirectionVector) : TelescopeDirectionVector :=
  ⟨-a.x, -a.y, -a.z⟩

/-- Modelled from the spec: the squared Euclidean length (§4.A).  The
source computes `Length()` as the square root of this quantity; the square
root is strictly monotone on the nonnegative reals, so wherever lengths
are only compared or tested for equality (the nearest-point map keys) the
squared length induces exactly the same order and the same collisions,
while staying inside `ℚ`. -/
def lengthSquared (a : TelescopeDirectionVector) : ℚ :=
  a.x * a.x + a.y * a.y + a.z * a.z

end TelescopeDirectionVector

/-- The zero vector, used as the harmless default of total list lookups
(an out-of-range vertex label in the source indexes past the end of a
`std::vector`, which is undefined behaviour). -/
def zeroVector : TelescopeDirectionVector := ⟨0, 0, 0⟩

/-- Total lookup into a list of direction vectors. -/
def nthVector (l : List TelescopeDirectionVector) (n : Nat) : TelescopeDirectionVector :=
  (l.get? n).getD zeroVector

/-- The machine epsilon of IEEE-754 binary64, the value of
`std::numeric_limits<double>::epsilon()`. -/
def doubleEpsilon : ℚ := 1 / 2 ^ 52

open TelescopeDirectionVector in
/-- Translation of `BasicMathPlugin::RayTriangleIntersection`
(Möller–Trumbore, source lines 900–950).  The ray starts at the origin;
`Ray` need not be unit length. -/
def RayTriangleIntersection (Ray TriangleVertex1 TriangleVertex2 TriangleVertex3 :
    TelescopeDirectionVector) : Bool :=
  let Edge1 := sub TriangleVertex2 TriangleVertex1
  let Edge2 := sub TriangleVertex3 TriangleVertex1
  let P := cross Ray Edge2
  let Determinant := dot Edge1 P
  let InverseDeterminant := 1 / Determinant
  if -doubleEpsilon < Determinant ∧ Determinant < doubleEpsilon then
    false
  else
    let T := neg TriangleVertex1
    let u := dot T P * InverseDeterminant
    if u < 0 ∨ u > 1 then
      false
    else
      let Q := cross T Edge1
      let v := dot Ray Q * InverseDeterminant
      if v < 0 ∨ u + v > 1 then
        false
      else
        let t := dot Edge2 Q * InverseDeterminant
        if t > doubleEpsilon then
          true
        else
          false

/-- Equatorial coordinates: right ascension in decimal hours, declination
in decimal degrees (the `INDI::IEquatorialCoordinates` input record). -/
structure EquatorialCoordinates where
  rightascension : ℚ
  declination : ℚ
deriving DecidableEq

/-- Horizontal coordinates: altitude and azimuth in decimal degrees (the
`INDI::IHorizontalCoordinates` record). -/
structure HorizontalCoordinates where
  altitude : ℚ
  azimuth : ℚ
deriving DecidableEq

/-- Geographic reference position (the `IGeographicCoordinates` record). -/
structure GeographicCoordinates where
  latitude : ℚ
  longitude : ℚ
  elevation : ℚ
deriving DecidableEq

/-- One sync point of the in-memory alignment database
(`AlignmentDatabaseEntry`): celestial coordinates, the Julian date of the
observation, and the mount-reported apparent direction. -/
structure AlignmentDatabaseEntry where
  RightAscension : ℚ
  Declination : ℚ
  ObservationJulianDate : ℚ
  TelescopeDirection : TelescopeDirectionVector
deriving DecidableEq

/-- Fallback entry used to totalise list indexing (the source indexes
`SyncPoints[vnum - 1]` without a bounds check). -/
def defaultEntry : AlignmentDatabaseEntry := ⟨0, 0, 0, zeroVector⟩

/-- Total lookup into the sync-point list. -/
def nthEntry (l : List AlignmentDatabaseEntry) (n : Nat) : AlignmentDatabaseEntry :=
  (l.get? n).getD defaultEntry

/-- The mount alignment hint (`MountAlignment`). -/
inductive MountAlignment where
  | ZENITH
  | NORTH_CELESTIAL_POLE
  | SOUTH_CELESTIAL_POLE
deriving DecidableEq

/-- The borrowed sync-point database (`InMemoryDatabase`): the ordered
alignment entries and the optional geographic reference position
(`GetDatabaseReferencePosition` returns false when it is unset). -/
structure InMemoryDatabase where
  syncPoints : List AlignmentDatabaseEntry
  referencePosition : Option GeographicCoordinates
deriving DecidableEq

/-- A dense 3×3 matrix of exact scalars (a `gsl_matrix` of size 3×3). -/
@[ext]
structure Matrix3 where
  m00 : ℚ
  m01 : ℚ
  m02 : ℚ
  m10 : ℚ
  m11 : ℚ
  m12 : ℚ
  m20 : ℚ
  m21 : ℚ
  m22 : ℚ
deriving DecidableEq

namespace Matrix3

/-- The identity matrix. -/
def identity3 : Matrix3 := ⟨1, 0, 0, 0, 1, 0, 0, 0, 1⟩

/-- Determinant of a 3×3 matrix by cofactor expansion.  The source's
`Matrix3x3Determinant` computes the same value through an LU
decomposition; in exact arithmetic the two agree. -/
def det3 (m : Matrix3) : ℚ :=
  m.m00 * (m.m11 * m.m22 - m.m12 * m.m21) -
    m.m01 * (m.m10 * m.m22 - m.m12 * m.m20) +
    m.m02 * (m.m10 * m.m21 - m.m11 * m.m20)

/-- Translation of `BasicMathPlugin::MatrixMatrixMultiply` (a dgemm call):
ordinary matrix product. -/
def matMul3 (a b : Matrix3) : Matrix3 :=
  ⟨a.m00 * b.m00 + a.m01 * b.m10 + a.m02 * b.m20,
   a.m00 * b.m01 + a.m01 * b.m11 + a.m02 * b.m21,
   a.m00 * b.m02 + a.m01 * b.m12 + a.m02 * b.m22,
   a.m10 * b.m00 + a.m11 * b.m10 + a.m12 * b.m20,
   a.m10 * b.m01 + a.m11 * b.m11 + a.m12 * b.m21,
   a.m10 * b.m02 + a.m11 * b.m12 + a.m12 * b.m22,
   a.m20 * b.m00 + a.m21 * b.m10 + a.m22 * b.m20,
   a.m20 * b.m01 + a.m21 * b.m11 + a.m22 * b.m21,
   a.m20 * b.m02 + a.m21 * b.m12 + a.m22 * b.m22⟩

/-- Translation of `BasicMathPlugin::MatrixVectorMultiply` (a dgemv call):
matrix–vector product. -/
def matVec3 (m : Matrix3) (v : TelescopeDirectionVector) : TelescopeDirectionVector :=
  ⟨m.m00 * v.x + m.m01 * v.y + m.m02 * v.z,
   m.m10 * v.x + m.m11 * v.y + m.m12 * v.z,
   m.m20 * v.x + m.m21 * v.y + m.m22 * v.z⟩

/-- Translation of `BasicMathPlugin::MatrixInvert3x3`: the source tests
the LU determinant for exact zero and only then inverts; here the inverse
is written through the adjugate, which agrees with LU inversion in exact
arithmetic.  Returns `none` exactly on a singular input. -/
def invert3 (m : Matrix3) : Option Matrix3 :=
  if det3 m = 0 then none
  else some
    ⟨(m.m11 * m.m22 - m.m12 * m.m21) / det3 m,
     (m.m02 * m.m21 - m.m01 * m.m22) / det3 m,
     (m.m01 * m.m12 - m.m02 * m.m11) / det3 m,
     (m.m12 * m.m20 - m.m10 * m.m22) / det3 m,
     (m.m00 * m.m22 - m.m02 * m.m20) / det3 m,
     (m.m02 * m.m10 - m.m00 * m.m12) / det3 m,
     (m.m10 * m.m21 - m.m11 * m.m20) / det3 m,
     (m.m01 * m.m20 - m.m00 * m.m21) / det3 m,
     (m.m00 * m.m11 - m.m01 * m.m10) / det3 m⟩

end Matrix3

open Matrix3

/-- The column-wise matrix `[c1 | c2 | c3]` of three direction vectors,
as formed by `CalculateTransformMatrices` (§4.D of the spec). -/
def colMat (c1 c2 c3 : TelescopeDirectionVector) : Matrix3 :=
  ⟨c1.x, c2.x, c3.x, c1.y, c2.y, c3.y, c1.z, c2.z, c3.z⟩

/-- Modelled from the spec: `MathPlugin::CalculateTransformMatrices`
(§4.D), whose definition is not among the provided sources, called with a
null second output.  From the actual triple `a1,a2,a3` and apparent
triple `p1,p2,p3` it forms `A = [a1|a2|a3]`, `P = [p1|p2|p3]` and yields
`M = P·A⁻¹`; it fails when `A` is singular, and on failure installs
nothing into its output. -/
def calcTransformMatrix (a1 a2 a3 p1 p2 p3 : TelescopeDirectionVector) : Option Matrix3 :=
  (invert3 (colMat a1 a2 a3)).map (fun Ainv => matMul3 (colMat p1 p2 p3) Ainv)

/-- Modelled from the spec: `MathPlugin::CalculateTransformMatrices`
(§4.D) with both outputs requested: additionally sets the second output
to `M⁻¹`; it fails when either inverse is singular, and on failure
installs nothing into either output. -/
def calcTransformPair (a1 a2 a3 p1 p2 p3 : TelescopeDirectionVector) :
    Option (Matrix3 × Matrix3) :=
  match calcTransformMatrix a1 a2 a3 p1 p2 p3 with
  | none => none
  | some M =>
    match invert3 M with
    | none => none
    | some Mi => some (M, Mi)

/-- A triangular facet of a convex hull: the three vertex labels
(`vertex[i]->vnum`) and the matrix slot `pMatrix`.  The slot is `none`
until the engine attaches a matrix (the hull library leaves it
unloaded). -/
structure Facet where
  v0 : Nat
  v1 : Nat
  v2 : Nat
  pMatrix : Option Matrix3
deriving DecidableEq

/-- A facet is a skirt facet when any of its vertex labels is 0, the
nadir sentinel. -/
def Facet.isSkirt (f : Facet) : Bool :=
  f.v0 == 0 || f.v1 == 0 || f.v2 == 0

/-- The external collaborators of the engine, kept opaque exactly as the
spec prescribes (§1, §6): the libnova coordinate conversions, the system
Julian date, vector normalisation (which leaves `ℚ`, being a division by
a square root), the convex-hull library (summarised as the function from
the labelled vertex set to the facet list it returns), and the contents
of an uninitialised `gsl_matrix_alloc` allocation. -/
structure Env where
  EquatorialToHorizontal : EquatorialCoordinates → GeographicCoordinates → ℚ → HorizontalCoordinates
  HorizontalToEquatorial : HorizontalCoordinates → GeographicCoordinates → ℚ → EquatorialCoordinates
  TelescopeDirectionVectorFromAltitudeAzimuth : HorizontalCoordinates → TelescopeDirectionVector
  TelescopeDirectionVectorFromEquatorialCoordinates : EquatorialCoordinates → TelescopeDirectionVector
  AltitudeAzimuthFromTelescopeDirectionVector : TelescopeDirectionVector → HorizontalCoordinates
  EquatorialCoordinatesFromTelescopeDirectionVector : TelescopeDirectionVector → EquatorialCoordinates
  lnGetJulianFromSys : ℚ
  Normalise : TelescopeDirectionVector → TelescopeDirectionVector
  buildHull : List (TelescopeDirectionVector × Nat) → List (Nat × Nat × Nat)
  uninitialisedMatrix : Matrix3

/-- The hint-driven branch the source repeats at every call site: the
actual direction cosine of a sync-point entry.  Under `ZENITH` the entry
is converted to horizontal coordinates at its own observation Julian date
and then to a direction vector; under either pole hint the vector is
taken directly from the equatorial coordinates. -/
def actualDirectionCosineOfEntry (env : Env) (hint : MountAlignment)
    (pos : GeographicCoordinates) (e : AlignmentDatabaseEntry) : TelescopeDirectionVector :=
  match hint with
  | .ZENITH =>
    env.TelescopeDirectionVectorFromAltitudeAzimuth
      (env.EquatorialToHorizontal ⟨e.RightAscension, e.Declination⟩ pos e.ObservationJulianDate)
  | _ =>
    env.TelescopeDirectionVectorFromEquatorialCoordinates ⟨e.RightAscension, e.Declination⟩

/-- The dummy second basis vector synthesised by the N=1 case of
`Initialise`: `(0,0,1)` under `ZENITH`, the direction of (α=0, δ=±90°)
under the pole hints.  The same vector is used on the actual and the
apparent side. -/
def dummyAxisVector (env : Env) (hint : MountAlignment) : TelescopeDirectionVector :=
  match hint with
  | .ZENITH => ⟨0, 0, 1⟩
  | .NORTH_CELESTIAL_POLE =>
    env.TelescopeDirectionVectorFromEquatorialCoordinates ⟨0, 90⟩
  | .SOUTH_CELESTIAL_POLE =>
    env.TelescopeDirectionVectorFromEquatorialCoordinates ⟨0, -90⟩

open TelescopeDirectionVector in
/-- The two ordered triples (actual, apparent) that the N∈{1,2,3} cases of
`Initialise` feed to `CalculateTransformMatrices`: the N=1 case completes
the basis with the hint axis and a normalised cross product, the N=2 case
with a normalised cross product, the N=3 case uses the entries directly.
Returns `none` on any other number of entries. -/
def globalTriples (env : Env) (hint : MountAlignment) (pos : GeographicCoordinates) :
    List AlignmentDatabaseEntry →
    Option ((TelescopeDirectionVector × TelescopeDirectionVector × TelescopeDirectionVector) ×
            (TelescopeDirectionVector × TelescopeDirectionVector × TelescopeDirectionVector))
  | [e1] =>
    let a1 := actualDirectionCosineOfEntry env hint pos e1
    let d2 := dummyAxisVector env hint
    let a3 := env.Normalise (cross a1 d2)
    let p3 := env.Normalise (cross e1.TelescopeDirection d2)
    some ((a1, d2, a3), (e1.TelescopeDirection, d2, p3))
  | [e1, e2] =>
    let a1 := actualDirectionCosineOfEntry env hint pos e1
    let a2 := actualDirectionCosineOfEntry env hint pos e2
    let a3 := env.Normalise (cross a1 a2)
    let p3 := env.Normalise (cross e1.TelescopeDirection e2.TelescopeDirection)
    some ((a1, a2, a3), (e1.TelescopeDirection, e2.TelescopeDirection, p3))
  | [e1, e2, e3] =>
    some ((actualDirectionCosineOfEntry env hint pos e1,
           actualDirectionCosineOfEntry env hint pos e2,
           actualDirectionCosineOfEntry env hint pos e3),
          (e1.TelescopeDirection, e2.TelescopeDirection, e3.TelescopeDirection))
  | _ => none

/-- The whole mutable state of a `BasicMathPlugin` object touched by the
translated member functions: the alignment hint, the two global transform
matrices, the two hulls with their per-facet matrices, the stored actual
direction cosines, and the bound database. -/
structure BasicMathPluginState where
  ApproximateMountAlignment : MountAlignment
  pActualToApparentTransform : Matrix3
  pApparentToActualTransform : Matrix3
  ActualConvexHull : List Facet
  ApparentConvexHull : List Facet
  ActualDirectionCosines : List TelescopeDirectionVector
  pInMemoryDatabase : Option InMemoryDatabase
deriving DecidableEq

/-- The labelled vertex set handed to the hull library by the N≥4 case of
`Initialise`: the nadir sentinel `(0,0,−1)` with label 0 followed by the
given vectors with labels 1..N in order. -/
def hullVertices (vecs : List TelescopeDirectionVector) : List (TelescopeDirectionVector × Nat) :=
  (⟨0, 0, -1⟩, 0) :: vecs.enum.map (fun p => (p.2, p.1 + 1))

/-- The per-facet matrix computed for a facet of the ACTUAL hull (labels
`i j k ≥ 1`): the facet's actual cosines are the source basis, the
corresponding telescope directions the target basis. -/
def actualFacetMatrix (cosines : List TelescopeDirectionVector)
    (pts : List AlignmentDatabaseEntry) (i j k : Nat) : Option Matrix3 :=
  calcTransformMatrix
    (nthVector cosines (i - 1)) (nthVector cosines (j - 1)) (nthVector cosines (k - 1))
    (nthEntry pts (i - 1)).TelescopeDirection
    (nthEntry pts (j - 1)).TelescopeDirection
    (nthEntry pts (k - 1)).TelescopeDirection

/-- The per-facet matrix computed for a facet of the APPARENT hull:
telescope directions are the source basis, actual cosines the target. -/
def apparentFacetMatrix (cosines : List TelescopeDirectionVector)
    (pts : List AlignmentDatabaseEntry) (i j k : Nat) : Option Matrix3 :=
  calcTransformMatrix
    (nthEntry pts (i - 1)).TelescopeDirection
    (nthEntry pts (j - 1)).TelescopeDirection
    (nthEntry pts (k - 1)).TelescopeDirection
    (nthVector cosines (i - 1)) (nthVector cosines (j - 1)) (nthVector cosines (k - 1))

/-- The facet-matrix loading loop of `Initialise`: every facet whose
three vertex labels are all nonzero gets the computed matrix attached;
skirt facets are left unloaded. -/
def attachFacetMatrix (compute : Nat → Nat → Nat → Option Matrix3)
    (t : Nat × Nat × Nat) : Facet :=
  if t.1 = 0 ∨ t.2.1 = 0 ∨ t.2.2 = 0 then ⟨t.1, t.2.1, t.2.2, none⟩
  else ⟨t.1, t.2.1, t.2.2, compute t.1 t.2.1 t.2.2⟩

/-- Translation of `BasicMathPlugin::Initialise` (source lines 41–359).
Binds the database, then dispatches on the number of sync points: 0 —
return true immediately (no reference-position check, no transforms
touched); 1, 2, 3 — require the reference position, build the completed
triples, compute the global transform pair, and return true whether or
not the computation succeeded (the source discards any failure of
`CalculateTransformMatrices`); 4 or more — require the reference
position, rebuild both hulls over the nadir sentinel plus the sync
points, attach a matrix to every non-skirt facet of each hull, store the
actual direction cosines, and return true. -/
def initialise (env : Env) (s0 : BasicMathPluginState) (db : InMemoryDatabase) :
    Bool × BasicMathPluginState :=
  let s := { s0 with pInMemoryDatabase := some db }
  match db.syncPoints with
  | [] => (true, s)
  | [_] | [_, _] | [_, _, _] =>
    match db.referencePosition with
    | none => (false, s)
    | some pos =>
      match globalTriples env s.ApproximateMountAlignment pos db.syncPoints with
      | none => (true, s)
      | some ((a1, a2, a3), (p1, p2, p3)) =>
        match calcTransformPair a1 a2 a3 p1 p2 p3 with
        | some (M, Mi) =>
          (true, { s with pActualToApparentTransform := M, pApparentToActualTransform := Mi })
        | none => (true, s)
  | _ :: _ :: _ :: _ :: _ =>
    match db.referencePosition with
    | none => (false, s)
    | some pos =>
      let cosines :=
        db.syncPoints.map (actualDirectionCosineOfEntry env s.ApproximateMountAlignment pos)
      let actualHull :=
        (env.buildHull (hullVertices cosines)).map
          (attachFacetMatrix (actualFacetMatrix cosines db.syncPoints))
      let apparentHull :=
        (env.buildHull (hullVertices (db.syncPoints.map (fun e => e.TelescopeDirection)))).map
          (attachFacetMatrix (apparentFacetMatrix cosines db.syncPoints))
      (true, { s with ActualConvexHull := actualHull, ApparentConvexHull := apparentHull,
                      ActualDirectionCosines := cosines })

section NearestMap

variable {α : Type}

/-- Insertion into a key-sorted association list, the behaviour of
`std::map<double, ...>::operator[]` followed by an assignment: a fresh
key is placed at its ordered position, an existing key has its mapped
value overwritten. -/
def mapInsert (k : ℚ) (v : α) : List (ℚ × α) → List (ℚ × α)
  | [] => [(k, v)]
  | (k1, v1) :: t =>
    if k < k1 then (k, v) :: (k1, v1) :: t
    else if k = k1 then (k, v) :: t
    else (k1, v1) :: mapInsert k v t

/-- Ordered-map lookup: the value mapped by the first matching key. -/
def mapFind (k : ℚ) : List (ℚ × α) → Option α
  | [] => none
  | (k1, v1) :: t => if k = k1 then some v1 else mapFind k t

/-- The ordering invariant of `std::map`: keys strictly increase along
the association list. -/
def keySorted (m : List (ℚ × α)) : Prop :=
  List.Pairwise (fun p q => p.1 < q.1) m

/-- The `NearestMap` built by the fallback path of both queries: every
sync point is inserted under its distance-to-query key, in database
iteration order.  The source keys the map by the Euclidean length of the
difference vector; `key` here is the squared length, which induces the
identical ordering and identical key collisions (the square root is
strictly monotone on the nonnegative reals). -/
def buildNearestMap (key : AlignmentDatabaseEntry → ℚ)
    (pts : List AlignmentDatabaseEntry) : List (ℚ × AlignmentDatabaseEntry) :=
  pts.foldl (fun m e => mapInsert (key e) e m) []

/-- The fallback's choice of entries: the first three positions of the
ordered map, obtained by dereferencing and twice incrementing
`NearestMap.begin()`.  When the map holds fewer than three entries the
source dereferences an iterator advanced past the end — undefined
behaviour — which is modelled as `none`. -/
def selectThreeNearest (m : List (ℚ × α)) : Option (α × α × α) :=
  match m with
  | (_, e1) :: (_, e2) :: (_, e3) :: _ => some (e1, e2, e3)
  | _ => none

end NearestMap

/-- The facet scan both queries run over a hull's circular face ring: the
ring is walked from its head face, skipping skirt facets, until the hit
test succeeds.  After the loop the source takes the fallback branch
whenever the cursor is back at the head face — which happens both when no
facet hit and when the break fired on the very first face — so a hit is
only used when it occurred at a later position of the ring. -/
def findTransformFace (hit : Facet → Bool) (fs : List Facet) : Option Facet :=
  match fs.findIdx? (fun f => !f.isSkirt && hit f) with
  | some (i + 1) => fs.get? (i + 1)
  | _ => none

open TelescopeDirectionVector Matrix3 in
/-- The hit test of `TransformCelestialToTelescope`: shoot the scaled
query ray at the facet's triangle of actual direction cosines. -/
def actualFacetHit (cosines : List TelescopeDirectionVector)
    (scaledRay : TelescopeDirectionVector) (f : Facet) : Bool :=
  RayTriangleIntersection scaledRay
    (nthVector cosines (f.v0 - 1)) (nthVector cosines (f.v1 - 1)) (nthVector cosines (f.v2 - 1))

/-- The hit test of `TransformTelescopeToCelestial`: the triangle is the
facet's telescope (apparent) directions. -/
def apparentFacetHit (pts : List AlignmentDatabaseEntry)
    (scaledRay : TelescopeDirectionVector) (f : Facet) : Bool :=
  RayTriangleIntersection scaledRay
    (nthEntry pts (f.v0 - 1)).TelescopeDirection
    (nthEntry pts (f.v1 - 1)).TelescopeDirection
    (nthEntry pts (f.v2 - 1)).TelescopeDirection

open TelescopeDirectionVector in
/-- The distance key of the celestial-to-telescope fallback: squared
Euclidean distance between the entry's actual direction cosine and the
query's actual vector (see `buildNearestMap` for the squaring). -/
def actualDistanceKey (env : Env) (hint : MountAlignment) (pos : GeographicCoordinates)
    (actualVector : TelescopeDirectionVector) (e : AlignmentDatabaseEntry) : ℚ :=
  lengthSquared (sub (actualDirectionCosineOfEntry env hint pos e) actualVector)

open TelescopeDirectionVector in
/-- The distance key of the telescope-to-celestial fallback: squared
Euclidean distance between the entry's telescope direction and the
queried apparent vector. -/
def apparentDistanceKey (apparentVector : TelescopeDirectionVector)
    (e : AlignmentDatabaseEntry) : ℚ :=
  lengthSquared (sub e.TelescopeDirection apparentVector)

/-- The three entries the celestial-to-telescope fallback settles on. -/
def fallbackTripleC2T (env : Env) (hint : MountAlignment) (pos : GeographicCoordinates)
    (pts : List AlignmentDatabaseEntry) (actualVector : TelescopeDirectionVector) :
    Option (AlignmentDatabaseEntry × AlignmentDatabaseEntry × AlignmentDatabaseEntry) :=
  selectThreeNearest (buildNearestMap (actualDistanceKey env hint pos actualVector) pts)

/-- The transform the celestial-to-telescope fallback builds from its
triple (source lines 487–556): actual cosines are the source basis,
telescope directions the target.  A singular triple leaves the freshly
allocated matrix uninitialised, and the source uses it regardless. -/
def fallbackTransformC2T (env : Env) (hint : MountAlignment) (pos : GeographicCoordinates)
    (pts : List AlignmentDatabaseEntry) (actualVector : TelescopeDirectionVector) :
    Option Matrix3 :=
  (fallbackTripleC2T env hint pos pts actualVector).map (fun t =>
    (calcTransformMatrix
      (actualDirectionCosineOfEntry env hint pos t.1)
      (actualDirectionCosineOfEntry env hint pos t.2.1)
      (actualDirectionCosineOfEntry env hint pos t.2.2)
      t.1.TelescopeDirection t.2.1.TelescopeDirection
      t.2.2.TelescopeDirection).getD env.uninitialisedMatrix)

/-- The three entries the telescope-to-celestial fallback settles on. -/
def fallbackTripleT2C (pts : List AlignmentDatabaseEntry)
    (apparentVector : TelescopeDirectionVector) :
    Option (AlignmentDatabaseEntry × AlignmentDatabaseEntry × AlignmentDatabaseEntry) :=
  selectThreeNearest (buildNearestMap (apparentDistanceKey apparentVector) pts)

/-- The transform the telescope-to-celestial fallback builds from its
triple (source lines 718–773): telescope directions are the source basis,
actual cosines the target. -/
def fallbackTransformT2C (env : Env) (hint : MountAlignment) (pos : GeographicCoordinates)
    (pts : List AlignmentDatabaseEntry) (apparentVector : TelescopeDirectionVector) :
    Option Matrix3 :=
  (fallbackTripleT2C pts apparentVector).map (fun t =>
    (calcTransformMatrix
      t.1.TelescopeDirection t.2.1.TelescopeDirection t.2.2.TelescopeDirection
      (actualDirectionCosineOfEntry env hint pos t.1)
      (actualDirectionCosineOfEntry env hint pos t.2.1)
      (actualDirectionCosineOfEntry env hint pos t.2.2)).getD env.uninitialisedMatrix)

/-- The query-time actual direction vector: the same hint branch as at
build time, except that under `ZENITH` the Julian date is the system
Julian date plus the caller's offset. -/
def queryActualVector (env : Env) (hint : MountAlignment) (pos : GeographicCoordinates)
    (raDec : EquatorialCoordinates) (julianOffset : ℚ) : TelescopeDirectionVector :=
  match hint with
  | .ZENITH =>
    env.TelescopeDirectionVectorFromAltitudeAzimuth
      (env.EquatorialToHorizontal raDec pos (env.lnGetJulianFromSys + julianOffset))
  | _ => env.TelescopeDirectionVectorFromEquatorialCoordinates raDec

/-- The conversion of a computed actual direction vector back to
equatorial coordinates at the end of `TransformTelescopeToCelestial`:
via horizontal coordinates at the current system Julian date under
`ZENITH`, directly otherwise. -/
def raDecFromActualVector (env : Env) (hint : MountAlignment) (pos : GeographicCoordinates)
    (v : TelescopeDirectionVector) : EquatorialCoordinates :=
  match hint with
  | .ZENITH => env.HorizontalToEquatorial (env.AltitudeAzimuthFromTelescopeDirectionVector v) pos env.lnGetJulianFromSys
  | _ => env.EquatorialCoordinatesFromTelescopeDirectionVector v

open TelescopeDirectionVector Matrix3 in
/-- Translation of `BasicMathPlugin::TransformCelestialToTelescope`
(source lines 361–587).  Returns the apparent direction vector (`none`
models a false return) together with the state after the call.  Fails
without a bound database or reference position.  N=0: the hint-branch
conversion of the query, returned unchanged.  N∈{1,2,3}: the global
actual-to-apparent matrix applied and normalised.  N≥4: the ray scaled
by 2 is shot at the actual hull's facet ring; the matrix of the struck
facet — or, when the scan comes back at the ring head, the fallback
transform built from the nearest map — is applied and the result
normalised; an empty face ring fails. -/
def transformCelestialToTelescope (env : Env) (s : BasicMathPluginState)
    (RightAscension Declination JulianOffset : ℚ) :
    Option TelescopeDirectionVector × BasicMathPluginState :=
  let ActualRaDec : EquatorialCoordinates := ⟨RightAscension, Declination⟩
  match s.pInMemoryDatabase with
  | none => (none, s)
  | some db =>
    match db.referencePosition with
    | none => (none, s)
    | some Position =>
      match db.syncPoints with
      | [] =>
        match s.ApproximateMountAlignment with
        | .ZENITH =>
          (some (env.TelescopeDirectionVectorFromAltitudeAzimuth
            (env.EquatorialToHorizontal ActualRaDec Position
              (env.lnGetJulianFromSys + JulianOffset))), s)
        | _ =>
          (some (env.TelescopeDirectionVectorFromEquatorialCoordinates ActualRaDec), s)
      | [_] | [_, _] | [_, _, _] =>
        let ActualVector :=
          queryActualVector env s.ApproximateMountAlignment Position ActualRaDec JulianOffset
        (some (env.Normalise (matVec3 s.pActualToApparentTransform ActualVector)), s)
      | _ :: _ :: _ :: _ :: _ =>
        let ActualVector :=
          queryActualVector env s.ApproximateMountAlignment Position ActualRaDec JulianOffset
        let ScaledActualVector := smul ActualVector 2
        match s.ActualConvexHull with
        | [] => (none, s)
        | _ :: _ =>
          match findTransformFace
              (actualFacetHit s.ActualDirectionCosines ScaledActualVector)
              s.ActualConvexHull with
          | some f =>
            (some (env.Normalise
              (matVec3 (f.pMatrix.getD env.uninitialisedMatrix) ActualVector)), s)
          | none =>
            match fallbackTransformC2T env s.ApproximateMountAlignment Position
                db.syncPoints ActualVector with
            | some M => (some (env.Normalise (matVec3 M ActualVector)), s)
            | none => (none, s)

open TelescopeDirectionVector Matrix3 in
/-- Translation of `BasicMathPlugin::TransformTelescopeToCelestial`
(source lines 589–813).  Returns the equatorial coordinates (`none`
models a false return) together with the state after the call.  The
mirror image of `transformCelestialToTelescope`: the apparent hull and
the apparent-to-actual matrices are used, and the resulting actual vector
is converted back to (α, δ) at the current system Julian date. -/
def transformTelescopeToCelestial (env : Env) (s : BasicMathPluginState)
    (ApparentTelescopeDirectionVector : TelescopeDirectionVector) :
    Option EquatorialCoordinates × BasicMathPluginState :=
  match s.pInMemoryDatabase with
  | none => (none, s)
  | some db =>
    match db.referencePosition with
    | none => (none, s)
    | some Position =>
      match db.syncPoints with
      | [] =>
        match s.ApproximateMountAlignment with
        | .ZENITH =>
          (some (env.HorizontalToEquatorial
            (env.AltitudeAzimuthFromTelescopeDirectionVector ApparentTelescopeDirectionVector)
            Position env.lnGetJulianFromSys), s)
        | _ =>
          (some (env.EquatorialCoordinatesFromTelescopeDirectionVector
            ApparentTelescopeDirectionVector), s)
      | [_] | [_, _] | [_, _, _] =>
        let ActualTelescopeDirectionVector :=
          env.Normalise (matVec3 s.pApparentToActualTransform ApparentTelescopeDirectionVector)
        (some (raDecFromActualVector env s.ApproximateMountAlignment Position
          ActualTelescopeDirectionVector), s)
      | _ :: _ :: _ :: _ :: _ =>
        let ScaledApparentVector := smul ApparentTelescopeDirectionVector 2
        match s.ApparentConvexHull with
        | [] => (none, s)
        | _ :: _ =>
          match findTransformFace
              (apparentFacetHit db.syncPoints ScaledApparentVector)
              s.ApparentConvexHull with
          | some f =>
            (some (raDecFromActualVector env s.ApproximateMountAlignment Position
              (env.Normalise (matVec3 (f.pMatrix.getD env.uninitialisedMatrix)
                ApparentTelescopeDirectionVector))), s)
          | none =>
            match fallbackTransformT2C env s.ApproximateMountAlignment Position
                db.syncPoints ApparentTelescopeDirectionVector with
            | some M =>
              (some (raDecFromActualVector env s.ApproximateMountAlignment Position
                (env.Normalise (matVec3 M ApparentTelescopeDirectionVector))), s)
            | none => (none, s)

open TelescopeDirectionVector in
/-- Three direction vectors are collinear when all pairwise cross
products vanish. -/
def collinearTriple (a b c : TelescopeDirectionVector) : Prop :=
  cross a b = zeroVector ∧ cross a c = zeroVector ∧ cross b c = zeroVector

/-- Collinearity is decidable: it is a conjunction of component
equalities. -/
instance collinearTripleDecidable (a b c : TelescopeDirectionVector) :
    Decidable (collinearTriple a b c) :=
  inferInstanceAs (Decidable
    (TelescopeDirectionVector.cross a b = zeroVector ∧
     TelescopeDirectionVector.cross a c = zeroVector ∧
     TelescopeDirectionVector.cross b c = zeroVector))

/-- Entry-wise approximate equality of two matrices to a tolerance. -/
def matrixApproxEq (tol : ℚ) (a b : Matrix3) : Prop :=
  |a.m00 - b.m00| ≤ tol ∧ |a.m01 - b.m01| ≤ tol ∧ |a.m02 - b.m02| ≤ tol ∧
  |a.m10 - b.m10| ≤ tol ∧ |a.m11 - b.m11| ≤ tol ∧ |a.m12 - b.m12| ≤ tol ∧
  |a.m20 - b.m20| ≤ tol ∧ |a.m21 - b.m21| ≤ tol ∧ |a.m22 - b.m22| ≤ tol

/-- Approximate matrix equality is decidable: a conjunction of rational
comparisons. -/
instance matrixApproxEqDecidable (tol : ℚ) (a b : Matrix3) :
    Decidable (matrixApproxEq tol a b) :=
  inferInstanceAs (Decidable
    (|a.m00 - b.m00| ≤ tol ∧ |a.m01 - b.m01| ≤ tol ∧ |a.m02 - b.m02| ≤ tol ∧
     |a.m10 - b.m10| ≤ tol ∧ |a.m11 - b.m11| ≤ tol ∧ |a.m12 - b.m12| ≤ tol ∧
     |a.m20 - b.m20| ≤ tol ∧ |a.m21 - b.m21| ≤ tol ∧ |a.m22 - b.m22| ≤ tol))

/-- The all-zero matrix, a convenient concrete content for matrices the
source never initialises. -/
def zeroMatrix : Matrix3 := ⟨0, 0, 0, 0, 0, 0, 0, 0, 0⟩

/-- A concrete geographic position for closed instances. -/
def pos0 : GeographicCoordinates := ⟨0, 0, 0⟩

/-- A concrete environment for closed instances: simple injective
conversion maps, identity normalisation, an empty hull, zeroed scratch
memory. -/
def testEnv : Env where
  EquatorialToHorizontal := fun c _ _ => ⟨c.rightascension, c.declination⟩
  HorizontalToEquatorial := fun h _ _ => ⟨h.altitude, h.azimuth⟩
  TelescopeDirectionVectorFromAltitudeAzimuth := fun h => ⟨h.altitude, h.azimuth, 0⟩
  TelescopeDirectionVectorFromEquatorialCoordinates := fun c =>
    if c.declination = 90 then ⟨0, 0, 1⟩
    else if c.declination = -90 then ⟨0, 0, -1⟩
    else ⟨1, c.rightascension, c.declination⟩
  AltitudeAzimuthFromTelescopeDirectionVector := fun v => ⟨v.x, v.y⟩
  EquatorialCoordinatesFromTelescopeDirectionVector := fun v => ⟨v.x, v.y⟩
  lnGetJulianFromSys := 2451545
  Normalise := fun v => v
  buildHull := fun _ => []
  uninitialisedMatrix := ⟨0, 0, 0, 0, 0, 0, 0, 0, 0⟩

/-- A freshly constructed plugin state with a chosen hint: zeroed
matrices, empty hulls, no database bound. -/
def initialState (hint : MountAlignment) : BasicMathPluginState :=
  ⟨hint, zeroMatrix, zeroMatrix, [], [], [], none⟩

/-- A concrete sync point whose actual vector under `testEnv` and the
pole hints is `(1,0,0)`. -/
def entryX : AlignmentDatabaseEntry := ⟨0, 0, 0, ⟨1, 0, 0⟩⟩

/-- A database of three identical (hence collinear) sync points. -/
def dbCollinear : InMemoryDatabase := ⟨[entryX, entryX, entryX], some pos0⟩

/-- Four sync points with a distance tie: under `testEnv` and a pole
hint their actual vectors are `(1,5,4)`, `(1,5,6)`, `(1,5,7)`,
`(1,5,10)`, so the first two are equidistant from the query `(1,5,5)`. -/
def entryTieA : AlignmentDatabaseEntry := ⟨5, 4, 0, ⟨1, 0, 0⟩⟩

/-- Second tie entry; see `entryTieA`. -/
def entryTieB : AlignmentDatabaseEntry := ⟨5, 6, 0, ⟨0, 1, 0⟩⟩

/-- Third entry of the tie database, at squared distance 4. -/
def entryTieC : AlignmentDatabaseEntry := ⟨5, 7, 0, ⟨0, 0, 1⟩⟩

/-- Fourth entry of the tie database, at squared distance 25. -/
def entryTieD : AlignmentDatabaseEntry := ⟨5, 10, 0, ⟨1, 1, 1⟩⟩

/-- The tie database. -/
def dbTie : InMemoryDatabase :=
  ⟨[entryTieA, entryTieB, entryTieC, entryTieD], some pos0⟩

/-- A built state over `dbTie` whose two hulls consist of a single skirt
facet, so that every facet scan misses and the fallback path runs. -/
def sTie : BasicMathPluginState :=
  ⟨.NORTH_CELESTIAL_POLE, zeroMatrix, zeroMatrix,
   [⟨0, 1, 2, none⟩], [⟨0, 1, 2, none⟩],
   [⟨1, 5, 4⟩, ⟨1, 5, 6⟩, ⟨1, 5, 7⟩, ⟨1, 5, 10⟩], some dbTie⟩

/-- The unit-axis cosine list used by closed facet-scan instances. -/
def cosinesUnit : List TelescopeDirectionVector := [⟨1, 0, 0⟩, ⟨0, 1, 0⟩, ⟨0, 0, 1⟩]

/-- A skirt facet (its first vertex label is the nadir sentinel 0). -/
def skirtFacet : Facet := ⟨0, 1, 2, none⟩

/-- A non-skirt facet over the three unit axes. -/
def goodFacet : Facet := ⟨1, 2, 3, none⟩

/-- The empty database with a set reference position. -/
def db5 : InMemoryDatabase := ⟨[], some pos0⟩

/-- A state bound to the empty database, `ZENITH` hint. -/
def s5 : BasicMathPluginState :=
  ⟨.ZENITH, zeroMatrix, zeroMatrix, [], [], [], some db5⟩

/-- A one-entry database with the reference position unset. -/
def db6 : InMemoryDatabase := ⟨[entryX], none⟩

/-- A one-entry database with the reference position set. -/
def db8w : InMemoryDatabase := ⟨[entryX], some pos0⟩

/-- An environment whose hull library returns one non-skirt facet over
labels 1,2,3 and one skirt facet. -/
def env7 : Env := { testEnv with buildHull := fun _ => [(1, 2, 3), (0, 1, 2)] }

/-- Four sync points whose actual triples (under a pole hint) and
apparent triples at facet (1,2,3) are both nonsingular. -/
def db7 : InMemoryDatabase :=
  ⟨[⟨0, 0, 0, ⟨1, 0, 0⟩⟩, ⟨1, 0, 0, ⟨0, 1, 0⟩⟩, ⟨0, 1, 0, ⟨0, 0, 1⟩⟩, ⟨2, 3, 0, ⟨1, 1, 1⟩⟩],
   some pos0⟩

/-- Four sync points whose first three actual direction cosines (under a
pole hint) coincide, so the facet over labels 1, 2, 3 of the actual hull
has a singular source basis; the apparent directions stay independent. -/
def db7cx : InMemoryDatabase :=
  ⟨[⟨0, 0, 0, ⟨1, 0, 0⟩⟩, ⟨0, 0, 0, ⟨0, 1, 0⟩⟩, ⟨0, 0, 0, ⟨0, 0, 1⟩⟩, ⟨2, 3, 0, ⟨1, 1, 1⟩⟩],
   some pos0⟩

end BasicMathPlugin

namespace BasicMathPlugin

open TelescopeDirectionVector

/-- C2: `RayTriangleIntersection` returns true exactly when, writing
`e1 = v2 − v1`, `e2 = v3 − v1`, `p = ray × e2`, `det = e1·p`,
`t0 = −v1`, `u = (t0·p)/det`, `q = t0 × e1`, `v = (ray·q)/det` and
`t = (e2·q)/det`: the determinant satisfies `|det| ≥ ε` (double machine
epsilon), `0 ≤ u ≤ 1`, `v ≥ 0`, `u + v ≤ 1`, and `t > ε`. -/
theorem rayTriangleIntersection_iff
    (Ray v1 v2 v3 : TelescopeDirectionVector) :
    RayTriangleIntersection Ray v1 v2 v3 = true ↔
      (doubleEpsilon ≤ |dot (sub v2 v1) (cross Ray (sub v3 v1))| ∧
       0 ≤ dot (neg v1) (cross Ray (sub v3 v1)) /
            dot (sub v2 v1) (cross Ray (sub v3 v1)) ∧
       dot (neg v1) (cross Ray (sub v3 v1)) /
            dot (sub v2 v1) (cross Ray (sub v3 v1)) ≤ 1 ∧
       0 ≤ dot Ray (cross (neg v1) (sub v2 v1)) /
            dot (sub v2 v1) (cross Ray (sub v3 v1)) ∧
       dot (neg v1) (cross Ray (sub v3 v1)) /
            dot (sub v2 v1) (cross Ray (sub v3 v1)) +
         dot Ray (cross (neg v1) (sub v2 v1)) /
            dot (sub v2 v1) (cross Ray (sub v3 v1)) ≤ 1 ∧
       doubleEpsilon < dot (sub v3 v1) (cross (neg v1) (sub v2 v1)) /
            dot (sub v2 v1) (cross Ray (sub v3 v1))) := by
  have heps : (0 : ℚ) < doubleEpsilon := by norm_num [doubleEpsilon]
  unfold RayTriangleIntersection
  set d := dot (sub v2 v1) (cross Ray (sub v3 v1)) with hd
  set u := dot (neg v1) (cross Ray (sub v3 v1)) with hu
  set v := dot Ray (cross (neg v1) (sub v2 v1)) with hv
  set t := dot (sub v3 v1) (cross (neg v1) (sub v2 v1)) with ht
  simp only [mul_one_div]
  split_ifs with h1 h2 h3 h4
  · simp only [Bool.false_eq_true, false_iff]
    intro hcl
    rcases hcl with ⟨habs, _⟩
    rcases le_abs.mp habs with hle | hle
    · exact absurd h1.2 (not_lt.mpr hle)
    · exact absurd h1.1 (not_lt.mpr (by linarith))
  · simp only [Bool.false_eq_true, false_iff]
    intro hcl
    rcases h2 with h2 | h2
    · exact absurd hcl.2.1 (not_le.mpr h2)
    · exact absurd hcl.2.2.1 (not_le.mpr h2)
  · simp only [Bool.false_eq_true, false_iff]
    intro hcl
    rcases h3 with h3 | h3
    · exact absurd hcl.2.2.2.1 (not_le.mpr h3)
    · exact absurd hcl.2.2.2.2.1 (not_le.mpr h3)
  · simp only [true_iff]
    push_neg at h2 h3
    refine ⟨?_, h2.1, h2.2, h3.1, h3.2, h4⟩
    rcases lt_or_le d 0 with hdneg | hdpos
    · have : d ≤ -doubleEpsilon := by
        by_contra hcon
        push_neg at hcon
        exact h1 ⟨hcon, by linarith⟩
      calc doubleEpsilon ≤ -d := by linarith
        _ ≤ |d| := neg_le_abs d
    · have : doubleEpsilon ≤ d := by
        by_contra hcon
        push_neg at hcon
        exact h1 ⟨by linarith, hcon⟩
      calc doubleEpsilon ≤ d := this
        _ ≤ |d| := le_abs_self d
  · simp only [Bool.false_eq_true, false_iff]
    intro hcl
    exact h4 hcl.2.2.2.2.2

end BasicMathPlugin

namespace BasicMathPlugin

/-- C9: both queries leave the engine state untouched — the global
matrices, both hulls with their facet matrices, the stored direction
cosines and the database binding are returned unchanged on every path,
including the fallback path, whose computed transform exists only for
the call. -/
theorem queries_preserve_state (env : Env) (s : BasicMathPluginState)
    (ra dec off : ℚ) (ap : TelescopeDirectionVector) :
    (transformCelestialToTelescope env s ra dec off).2 = s ∧
    (transformTelescopeToCelestial env s ap).2 = s := by
  constructor
  · unfold transformCelestialToTelescope
    repeat' (first | rfl | (dsimp only) | split)
  · unfold transformTelescopeToCelestial
    repeat' (first | rfl | (dsimp only) | split)

end BasicMathPlugin

namespace BasicMathPlugin

/-- C4: whenever the facet scan that both queries use to pick their
transform source yields a facet, that facet's three vertex labels are all
nonzero — a facet touching the nadir sentinel (vertex label 0) is never
selected, being skipped by the scan.  `findTransformFace` is the sole
route by which `transformCelestialToTelescope` and
`transformTelescopeToCelestial` obtain a per-facet matrix. -/
theorem findTransformFace_skips_skirt (hit : Facet → Bool) (fs : List Facet) (f : Facet)
    (h : findTransformFace hit fs = some f) :
    f.v0 ≠ 0 ∧ f.v1 ≠ 0 ∧ f.v2 ≠ 0 := by
  unfold findTransformFace at h
  rcases hidx : fs.findIdx? (fun g => !g.isSkirt && hit g) with _ | i
  · rw [hidx] at h
    cases h
  · rw [hidx] at h
    rcases i with _ | j
    · cases h
    · rw [List.findIdx?_eq_some_iff_getElem] at hidx
      obtain ⟨hlt, hp, -⟩ := hidx
      have h2 : fs.get? (j + 1) = some f := h
      rw [List.get?_eq_getElem?, List.getElem?_eq_some] at h2
      obtain ⟨hlt2, hf⟩ := h2
      rw [hf] at hp
      simp only [Facet.isSkirt, Bool.and_eq_true, Bool.not_eq_true', Bool.or_eq_false_iff,
        beq_eq_false_iff_ne, ne_eq] at hp
      exact ⟨hp.1.1.1, hp.1.1.2, hp.1.2⟩

/-- Witness for C4: a concrete ring whose head facet is a skirt facet and
whose second facet is struck by the ray `(2/3, 2/3, 2/3)·2`; the scan
returns the second facet, whose labels are 1, 2, 3. -/
theorem findTransformFace_skips_skirt_witness :
    findTransformFace (actualFacetHit cosinesUnit ⟨4/3, 4/3, 4/3⟩) [skirtFacet, goodFacet] =
        some goodFacet ∧
      goodFacet.v0 ≠ 0 ∧ goodFacet.v1 ≠ 0 ∧ goodFacet.v2 ≠ 0 :=
  ⟨by with_unfolding_all decide,
   findTransformFace_skips_skirt (actualFacetHit cosinesUnit ⟨4/3, 4/3, 4/3⟩)
     [skirtFacet, goodFacet] goodFacet (by with_unfolding_all decide)⟩

end BasicMathPlugin

namespace BasicMathPlugin

/-- C6 (amended): `Initialise` returns false on a missing geographic
reference position exactly when the database is nonempty; with zero sync
points it returns true immediately, never consulting the position. -/
theorem initialise_missing_position (env : Env) (s : BasicMathPluginState)
    (db : InMemoryDatabase) (h : db.referencePosition = none) :
    (initialise env s db).1 = db.syncPoints.isEmpty := by
  obtain ⟨pts, rp⟩ := db
  subst h
  rcases pts with _ | ⟨e1, _ | ⟨e2, _ | ⟨e3, _ | ⟨e4, rest⟩⟩⟩⟩ <;> rfl

/-- Witness for C6: a one-entry database with no reference position makes
`Initialise` return false. -/
theorem initialise_missing_position_witness :
    db6.referencePosition = none ∧
      (initialise testEnv (initialState .ZENITH) db6).1 = db6.syncPoints.isEmpty ∧
      db6.syncPoints.isEmpty = false :=
  ⟨rfl, initialise_missing_position testEnv (initialState .ZENITH) db6 rfl, rfl⟩

/-- Counterexample for C6 as stated: with zero sync points and the
reference position unset, `Initialise` returns true, not false — the
N=0 case returns before the position is consulted. -/
theorem initialise_missing_position_counterexample :
    (⟨[], none⟩ : InMemoryDatabase).referencePosition = none ∧
      (initialise testEnv (initialState .ZENITH) ⟨[], none⟩).1 = true :=
  ⟨rfl, rfl⟩

/-- C5: with zero sync points both queries are pure passthrough
conversions.  `TransformCelestialToTelescope` returns, under the
`ZENITH` hint, the direction vector of the horizontal coordinates of
(α, δ) at the system Julian date plus the offset; under either pole hint
the direction vector computed directly from the equatorial coordinates,
with no rotation applied.  `TransformTelescopeToCelestial` applies the
corresponding inverse conversions at the system Julian date. -/
theorem n0_passthrough (env : Env) (s : BasicMathPluginState) (db : InMemoryDatabase)
    (pos : GeographicCoordinates) (ra dec off : ℚ) (ap : TelescopeDirectionVector)
    (hdb : s.pInMemoryDatabase = some db)
    (hsp : db.syncPoints = [])
    (hpos : db.referencePosition = some pos) :
    transformCelestialToTelescope env s ra dec off =
      (some (match s.ApproximateMountAlignment with
        | .ZENITH =>
          env.TelescopeDirectionVectorFromAltitudeAzimuth
            (env.EquatorialToHorizontal ⟨ra, dec⟩ pos (env.lnGetJulianFromSys + off))
        | _ => env.TelescopeDirectionVectorFromEquatorialCoordinates ⟨ra, dec⟩), s) ∧
    transformTelescopeToCelestial env s ap =
      (some (match s.ApproximateMountAlignment with
        | .ZENITH =>
          env.HorizontalToEquatorial (env.AltitudeAzimuthFromTelescopeDirectionVector ap)
            pos env.lnGetJulianFromSys
        | _ => env.EquatorialCoordinatesFromTelescopeDirectionVector ap), s) := by
  simp only [transformCelestialToTelescope, transformTelescopeToCelestial, hdb, hpos, hsp]
  cases hM : s.ApproximateMountAlignment <;> simp [hM]

/-- Witness for C5: the empty database under the `ZENITH` hint. -/
theorem n0_passthrough_witness :
    s5.pInMemoryDatabase = some db5 ∧ db5.syncPoints = [] ∧
      db5.referencePosition = some pos0 ∧
      transformCelestialToTelescope testEnv s5 3 4 1 =
        (some (testEnv.TelescopeDirectionVectorFromAltitudeAzimuth
          (testEnv.EquatorialToHorizontal ⟨3, 4⟩ pos0 (testEnv.lnGetJulianFromSys + 1))), s5) ∧
      transformTelescopeToCelestial testEnv s5 ⟨1, 2, 3⟩ =
        (some (testEnv.HorizontalToEquatorial
          (testEnv.AltitudeAzimuthFromTelescopeDirectionVector ⟨1, 2, 3⟩) pos0
          testEnv.lnGetJulianFromSys), s5) :=
  ⟨rfl, rfl, rfl,
   (n0_passthrough testEnv s5 db5 pos0 3 4 1 ⟨1, 2, 3⟩ rfl rfl rfl).1,
   (n0_passthrough testEnv s5 db5 pos0 3 4 1 ⟨1, 2, 3⟩ rfl rfl rfl).2⟩

end BasicMathPlugin

namespace BasicMathPlugin

/-- C1 (amended): for a database of exactly three sync points whose
actual (or apparent) direction vectors are collinear, `Initialise`
returns TRUE — the singular triple is never detected, the failure of the
transform computation being discarded — and every subsequent query also
succeeds, multiplying by whatever global matrices are in place. -/
theorem initialise_three_collinear_succeeds
    (env : Env) (s : BasicMathPluginState) (db : InMemoryDatabase)
    (e1 e2 e3 : AlignmentDatabaseEntry) (pos : GeographicCoordinates)
    (ra dec off : ℚ) (ap : TelescopeDirectionVector)
    (hsp : db.syncPoints = [e1, e2, e3])
    (hpos : db.referencePosition = some pos)
    (_hcol :
      collinearTriple
        (actualDirectionCosineOfEntry env s.ApproximateMountAlignment pos e1)
        (actualDirectionCosineOfEntry env s.ApproximateMountAlignment pos e2)
        (actualDirectionCosineOfEntry env s.ApproximateMountAlignment pos e3) ∨
      collinearTriple e1.TelescopeDirection e2.TelescopeDirection e3.TelescopeDirection) :
    (initialise env s db).1 = true ∧
    (transformCelestialToTelescope env (initialise env s db).2 ra dec off).1.isSome = true ∧
    (transformTelescopeToCelestial env (initialise env s db).2 ap).1.isSome = true := by
  obtain ⟨pts, rp⟩ := db
  obtain rfl : pts = [e1, e2, e3] := hsp
  obtain rfl : rp = some pos := hpos
  rcases hc : calcTransformPair
      (actualDirectionCosineOfEntry env s.ApproximateMountAlignment pos e1)
      (actualDirectionCosineOfEntry env s.ApproximateMountAlignment pos e2)
      (actualDirectionCosineOfEntry env s.ApproximateMountAlignment pos e3)
      e1.TelescopeDirection e2.TelescopeDirection e3.TelescopeDirection with _ | ⟨M, Mi⟩ <;>
    simp [initialise, globalTriples, hc,
      transformCelestialToTelescope, transformTelescopeToCelestial]

/-- Witness for C1 (amended): three identical sync points — a collinear
triple — with a set reference position; `Initialise` and both queries
succeed. -/
theorem initialise_three_collinear_succeeds_witness :
    dbCollinear.syncPoints = [entryX, entryX, entryX] ∧
      dbCollinear.referencePosition = some pos0 ∧
      collinearTriple
        (actualDirectionCosineOfEntry testEnv .NORTH_CELESTIAL_POLE pos0 entryX)
        (actualDirectionCosineOfEntry testEnv .NORTH_CELESTIAL_POLE pos0 entryX)
        (actualDirectionCosineOfEntry testEnv .NORTH_CELESTIAL_POLE pos0 entryX) ∧
      (initialise testEnv (initialState .NORTH_CELESTIAL_POLE) dbCollinear).1 = true ∧
      (transformCelestialToTelescope testEnv
        (initialise testEnv (initialState .NORTH_CELESTIAL_POLE) dbCollinear).2 1 2 0).1.isSome
          = true ∧
      (transformTelescopeToCelestial testEnv
        (initialise testEnv (initialState .NORTH_CELESTIAL_POLE) dbCollinear).2
          ⟨1, 0, 0⟩).1.isSome = true := by
  have h := initialise_three_collinear_succeeds testEnv (initialState .NORTH_CELESTIAL_POLE)
    dbCollinear entryX entryX entryX pos0 1 2 0 ⟨1, 0, 0⟩ rfl rfl
    (Or.inl (by with_unfolding_all decide))
  exact ⟨rfl, rfl, by with_unfolding_all decide, h.1, h.2.1, h.2.2⟩

/-- Counterexample for C1 as stated: at the concrete collinear
three-point database `dbCollinear`, `Initialise` returns true (the claim
says false) and a subsequent query succeeds (the claim says it fails). -/
theorem initialise_three_collinear_counterexample :
    collinearTriple
      (actualDirectionCosineOfEntry testEnv .NORTH_CELESTIAL_POLE pos0 entryX)
      (actualDirectionCosineOfEntry testEnv .NORTH_CELESTIAL_POLE pos0 entryX)
      (actualDirectionCosineOfEntry testEnv .NORTH_CELESTIAL_POLE pos0 entryX) ∧
    (initialise testEnv (initialState .NORTH_CELESTIAL_POLE) dbCollinear).1 = true ∧
    (transformCelestialToTelescope testEnv
      (initialise testEnv (initialState .NORTH_CELESTIAL_POLE) dbCollinear).2 1 2 0).1.isSome
        = true :=
  ⟨by with_unfolding_all decide, by with_unfolding_all decide, by with_unfolding_all decide⟩

end BasicMathPlugin

namespace BasicMathPlugin

section NearestMapLemmas

variable {α : Type}

/-- The keys after an insertion are the inserted key plus the old keys. -/
theorem mem_keys_mapInsert (k : ℚ) (v : α) (m : List (ℚ × α)) (x : ℚ) :
    x ∈ (mapInsert k v m).map Prod.fst ↔ x = k ∨ x ∈ m.map Prod.fst := by
  induction m with
  | nil => simp [mapInsert]
  | cons p t ih =>
    obtain ⟨k1, v1⟩ := p
    simp only [mapInsert]
    split_ifs with h1 h2
    · simp only [List.map_cons, List.mem_cons]
      try tauto
    · subst h2
      simp only [List.map_cons, List.mem_cons]
      try tauto
    · simp only [List.map_cons, List.mem_cons, ih]
      try tauto

/-- Insertion preserves the strict key ordering. -/
theorem keySorted_mapInsert {k : ℚ} {v : α} {m : List (ℚ × α)} (h : keySorted m) :
    keySorted (mapInsert k v m) := by
  induction m with
  | nil => simp [mapInsert, keySorted]
  | cons p t ih =>
    obtain ⟨k1, v1⟩ := p
    rw [keySorted, List.pairwise_cons] at h
    obtain ⟨h1, h2⟩ := h
    simp only [mapInsert]
    split_ifs with hlt heq
    · rw [keySorted, List.pairwise_cons]
      refine ⟨?_, List.Pairwise.cons h1 h2⟩
      intro q hq
      rcases List.mem_cons.mp hq with rfl | hq
      · exact hlt
      · exact lt_trans hlt (h1 q hq)
    · subst heq
      exact List.Pairwise.cons h1 h2
    · have hk1k : k1 < k := by
        rcases lt_trichotomy k k1 with h | h | h
        · exact absurd h hlt
        · exact absurd h heq
        · exact h
      rw [keySorted, List.pairwise_cons]
      refine ⟨?_, ih h2⟩
      intro q hq
      have hmem : q.1 ∈ (mapInsert k v t).map Prod.fst := List.mem_map_of_mem _ hq
      rw [mem_keys_mapInsert] at hmem
      rcases hmem with hq1 | hmem
      · rw [hq1]; exact hk1k
      · obtain ⟨p, hp, hpq⟩ := List.mem_map.mp hmem
        rw [← hpq]
        exact h1 p hp

/-- The key set after an insertion, as a finite set. -/
theorem keys_toFinset_mapInsert (k : ℚ) (v : α) (m : List (ℚ × α)) :
    ((mapInsert k v m).map Prod.fst).toFinset = insert k (m.map Prod.fst).toFinset := by
  ext x
  simp only [List.mem_toFinset, Finset.mem_insert, mem_keys_mapInsert]

/-- Looking up the just-inserted key finds the just-inserted value: a
second entry with an existing key overwrites the stored value. -/
theorem mapFind_mapInsert_self (k : ℚ) (v : α) (m : List (ℚ × α)) :
    mapFind k (mapInsert k v m) = some v := by
  induction m with
  | nil => simp [mapInsert, mapFind]
  | cons p t ih =>
    obtain ⟨k1, v1⟩ := p
    simp only [mapInsert]
    split_ifs with hlt heq
    · simp [mapFind]
    · simp [mapFind]
    · simp only [mapFind, if_neg heq]
      exact ih

/-- The fold building the nearest map keeps the key ordering. -/
theorem foldl_mapInsert_keySorted (key : α → ℚ) (pts : List α) (acc : List (ℚ × α))
    (h : keySorted acc) :
    keySorted (pts.foldl (fun m e => mapInsert (key e) e m) acc) := by
  induction pts generalizing acc with
  | nil => exact h
  | cons e pts ih => exact ih _ (keySorted_mapInsert h)

/-- The key set of the built map is the set of distances of the input. -/
theorem foldl_mapInsert_keys (key : α → ℚ) (pts : List α) (acc : List (ℚ × α)) :
    ((pts.foldl (fun m e => mapInsert (key e) e m) acc).map Prod.fst).toFinset =
      (pts.map key).toFinset ∪ (acc.map Prod.fst).toFinset := by
  induction pts generalizing acc with
  | nil => simp
  | cons e pts ih =>
    rw [List.foldl_cons, ih, keys_toFinset_mapInsert]
    ext x
    simp only [List.map_cons, List.toFinset_cons, Finset.mem_union, Finset.mem_insert]
    tauto

/-- The size of the built map is the number of distinct keys. -/
theorem foldl_mapInsert_length (key : α → ℚ) (pts : List α) (acc : List (ℚ × α))
    (h : keySorted acc) :
    (pts.foldl (fun m e => mapInsert (key e) e m) acc).length =
      ((pts.map key).toFinset ∪ (acc.map Prod.fst).toFinset).card := by
  induction pts generalizing acc with
  | nil =>
    simp only [List.foldl_nil, List.map_nil, List.toFinset_nil, Finset.empty_union]
    have hsort : ((acc.map Prod.fst).Pairwise (· < ·)) := by
      rw [List.pairwise_map]
      exact h
    have hnd : (acc.map Prod.fst).Nodup := hsort.imp ne_of_lt
    rw [List.toFinset_card_of_nodup hnd, List.length_map]
  | cons e pts ih =>
    rw [List.foldl_cons, ih _ (keySorted_mapInsert h), keys_toFinset_mapInsert]
    congr 1
    ext x
    simp only [List.map_cons, List.toFinset_cons, Finset.mem_union, Finset.mem_insert]
    tauto

/-- The size of the nearest map is the number of distinct distances. -/
theorem buildNearestMap_length (key : AlignmentDatabaseEntry → ℚ)
    (pts : List AlignmentDatabaseEntry) :
    (buildNearestMap key pts).length = (pts.map key).toFinset.card := by
  have h := foldl_mapInsert_length key pts [] (by simp [keySorted])
  simpa [buildNearestMap] using h

/-- A later entry at an already-present distance overwrites the earlier
candidate. -/
theorem buildNearestMap_overwrites (key : AlignmentDatabaseEntry → ℚ)
    (pts : List AlignmentDatabaseEntry) (e : AlignmentDatabaseEntry) :
    mapFind (key e) (buildNearestMap key (pts ++ [e])) = some e := by
  unfold buildNearestMap
  rw [List.foldl_append]
  simp only [List.foldl_cons, List.foldl_nil]
  exact mapFind_mapInsert_self _ _ _

/-- The triple selection succeeds exactly on maps with at least three
entries. -/
theorem selectThreeNearest_isSome_iff (m : List (ℚ × α)) :
    (selectThreeNearest m).isSome = true ↔ 3 ≤ m.length := by
  rcases m with _ | ⟨a, _ | ⟨b, _ | ⟨c, t⟩⟩⟩ <;> simp [selectThreeNearest]

end NearestMapLemmas

/-- C10: the fallback candidate map of both queries is keyed by distance,
so equidistant sync points collapse to one candidate — the map holds
exactly one entry per distinct distance, and inserting a later
equidistant entry overwrites the stored one — and the selection of three
entries, which dereferences the first three map positions, is possible
exactly when the sync points realise at least three pairwise-distinct
distances; with fewer, the begin iterator is advanced past the end of
the map (modelled as a `none` selection). -/
theorem nearestMap_ties_collapse (key : AlignmentDatabaseEntry → ℚ)
    (pts : List AlignmentDatabaseEntry) (e : AlignmentDatabaseEntry) :
    (buildNearestMap key pts).length = (pts.map key).toFinset.card ∧
    mapFind (key e) (buildNearestMap key (pts ++ [e])) = some e ∧
    ((selectThreeNearest (buildNearestMap key pts)).isSome = true ↔
      3 ≤ (pts.map key).toFinset.card) :=
  ⟨buildNearestMap_length key pts,
   buildNearestMap_overwrites key pts e,
   by rw [selectThreeNearest_isSome_iff, buildNearestMap_length]⟩

end BasicMathPlugin

namespace BasicMathPlugin

/-- C3 (amended): on an N≥4 query whose scaled ray strikes no non-skirt
facet (a nonempty face ring wrapping back to its head), each query
builds its transform from the triple delivered by the distance-keyed
candidate map — the entries at the three smallest pairwise-distinct
distances, later equidistant entries having overwritten earlier ones —
applies it to this call only, and returns the state unchanged; the
celestial query measures distances between actual vectors, the
telescope query between apparent vectors. -/
theorem fallback_uses_nearest_map_triple
    (env : Env) (s : BasicMathPluginState) (db : InMemoryDatabase)
    (pos : GeographicCoordinates) (ra dec off : ℚ) (ap : TelescopeDirectionVector)
    (e1 e2 e3 e4 : AlignmentDatabaseEntry) (rest : List AlignmentDatabaseEntry)
    (hdb : s.pInMemoryDatabase = some db)
    (hsp : db.syncPoints = e1 :: e2 :: e3 :: e4 :: rest)
    (hpos : db.referencePosition = some pos)
    (hhullA : s.ActualConvexHull ≠ [])
    (hmissA : findTransformFace
        (actualFacetHit s.ActualDirectionCosines
          (TelescopeDirectionVector.smul
            (queryActualVector env s.ApproximateMountAlignment pos ⟨ra, dec⟩ off) 2))
        s.ActualConvexHull = none)
    (hhullP : s.ApparentConvexHull ≠ [])
    (hmissP : findTransformFace
        (apparentFacetHit db.syncPoints (TelescopeDirectionVector.smul ap 2))
        s.ApparentConvexHull = none) :
    transformCelestialToTelescope env s ra dec off =
      ((fallbackTransformC2T env s.ApproximateMountAlignment pos db.syncPoints
          (queryActualVector env s.ApproximateMountAlignment pos ⟨ra, dec⟩ off)).map
        (fun M => env.Normalise (Matrix3.matVec3 M
          (queryActualVector env s.ApproximateMountAlignment pos ⟨ra, dec⟩ off))), s) ∧
    transformTelescopeToCelestial env s ap =
      ((fallbackTransformT2C env s.ApproximateMountAlignment pos db.syncPoints ap).map
        (fun M => raDecFromActualVector env s.ApproximateMountAlignment pos
          (env.Normalise (Matrix3.matVec3 M ap))), s) := by
  constructor
  · rcases hh : s.ActualConvexHull with _ | ⟨f0, fs⟩
    · exact absurd hh hhullA
    · rw [hh] at hmissA
      simp only [transformCelestialToTelescope, hdb, hpos, hsp, hh, hmissA]
      rcases hf : fallbackTransformC2T env s.ApproximateMountAlignment pos
          (e1 :: e2 :: e3 :: e4 :: rest)
          (queryActualVector env s.ApproximateMountAlignment pos ⟨ra, dec⟩ off) with _ | M <;>
        simp [hf]
  · rcases hh : s.ApparentConvexHull with _ | ⟨f0, fs⟩
    · exact absurd hh hhullP
    · rw [hsp] at hmissP
      rw [hh] at hmissP
      simp only [transformTelescopeToCelestial, hdb, hpos, hsp, hh, hmissP]
      rcases hf : fallbackTransformT2C env s.ApproximateMountAlignment pos
          (e1 :: e2 :: e3 :: e4 :: rest) ap with _ | M <;>
        simp [hf]

/-- Witness for C3 (amended): the four-point tie database, with a hull
made of one skirt facet so the scan misses; both queries equal the
fallback-built transform applied once, state unchanged. -/
theorem fallback_uses_nearest_map_triple_witness :
    findTransformFace
        (actualFacetHit sTie.ActualDirectionCosines
          (TelescopeDirectionVector.smul
            (queryActualVector testEnv .NORTH_CELESTIAL_POLE pos0 ⟨5, 5⟩ 0) 2))
        sTie.ActualConvexHull = none ∧
    transformCelestialToTelescope testEnv sTie 5 5 0 =
      ((fallbackTransformC2T testEnv .NORTH_CELESTIAL_POLE pos0 dbTie.syncPoints
          (queryActualVector testEnv .NORTH_CELESTIAL_POLE pos0 ⟨5, 5⟩ 0)).map
        (fun M => testEnv.Normalise (Matrix3.matVec3 M
          (queryActualVector testEnv .NORTH_CELESTIAL_POLE pos0 ⟨5, 5⟩ 0))), sTie) ∧
    transformTelescopeToCelestial testEnv sTie ⟨0, 0, 7⟩ =
      ((fallbackTransformT2C testEnv .NORTH_CELESTIAL_POLE pos0 dbTie.syncPoints ⟨0, 0, 7⟩).map
        (fun M => raDecFromActualVector testEnv .NORTH_CELESTIAL_POLE pos0
          (testEnv.Normalise (Matrix3.matVec3 M ⟨0, 0, 7⟩))), sTie) := by
  have h := fallback_uses_nearest_map_triple testEnv sTie dbTie pos0 5 5 0 ⟨0, 0, 7⟩
    entryTieA entryTieB entryTieC entryTieD [] rfl rfl rfl
    (by with_unfolding_all decide) (by with_unfolding_all decide)
    (by with_unfolding_all decide) (by with_unfolding_all decide)
  exact ⟨by with_unfolding_all decide, h.1, h.2⟩

/-- Counterexample for C3 as stated: a genuine N=4 query that misses all
facets and succeeds through the fallback, whose selected triple is
(B, C, D) — yet sync point A, strictly nearer to the query than the
selected D (and tied with the selected B), is not among the selected
three.  The selection is therefore not "the three sync points whose
actual vectors have the smallest Euclidean distance". -/
theorem fallback_nearest_counterexample :
    findTransformFace
        (actualFacetHit sTie.ActualDirectionCosines
          (TelescopeDirectionVector.smul
            (queryActualVector testEnv .NORTH_CELESTIAL_POLE pos0 ⟨5, 5⟩ 0) 2))
        sTie.ActualConvexHull = none ∧
    fallbackTripleC2T testEnv .NORTH_CELESTIAL_POLE pos0 dbTie.syncPoints
        (queryActualVector testEnv .NORTH_CELESTIAL_POLE pos0 ⟨5, 5⟩ 0) =
      some (entryTieB, entryTieC, entryTieD) ∧
    actualDistanceKey testEnv .NORTH_CELESTIAL_POLE pos0
        (queryActualVector testEnv .NORTH_CELESTIAL_POLE pos0 ⟨5, 5⟩ 0) entryTieA <
      actualDistanceKey testEnv .NORTH_CELESTIAL_POLE pos0
        (queryActualVector testEnv .NORTH_CELESTIAL_POLE pos0 ⟨5, 5⟩ 0) entryTieD ∧
    entryTieA ≠ entryTieB ∧ entryTieA ≠ entryTieC ∧ entryTieA ≠ entryTieD ∧
    (transformCelestialToTelescope testEnv sTie 5 5 0).1.isSome = true := by
  refine ⟨?_, ?_, ?_, ?_, ?_, ?_, ?_⟩ <;> with_unfolding_all decide

end BasicMathPlugin

namespace BasicMathPlugin

/-- When `MatrixInvert3x3` succeeds, its output is a genuine two-sided
inverse and the input determinant is nonzero. -/
theorem invert3_spec {m mi : Matrix3} (h : Matrix3.invert3 m = some mi) :
    Matrix3.matMul3 mi m = Matrix3.identity3 ∧ Matrix3.det3 m ≠ 0 := by
  unfold Matrix3.invert3 at h
  by_cases hd : Matrix3.det3 m = 0
  · rw [if_pos hd] at h
    cases h
  · rw [if_neg hd] at h
    injection h with h2
    refine ⟨?_, hd⟩
    rw [← h2]
    have hd2 : Matrix3.det3 m ≠ 0 := hd
    unfold Matrix3.det3 at hd2
    ext <;> simp only [Matrix3.matMul3, Matrix3.identity3, Matrix3.det3] <;>
      field_simp <;> ring

end BasicMathPlugin

namespace BasicMathPlugin

/-- C8 (amended): after an `Initialise` with 1, 2 or 3 sync points in
which the transform-pair computation succeeded — both completed bases
nonsingular — the two installed global matrices are exact mutual
inverses, `A2R · A2A` being the identity (hence within any tolerance,
in particular 1e-12), with `det(A2A) ≠ 0`.  Mere success of `Initialise`
does not guarantee this: on a singular triple it still returns true and
installs nothing (see the counterexample). -/
theorem initialise_global_matrices_inverse
    (env : Env) (s : BasicMathPluginState) (db : InMemoryDatabase)
    (pos : GeographicCoordinates)
    (a1 a2 a3 p1 p2 p3 : TelescopeDirectionVector) (M Mi : Matrix3)
    (hpos : db.referencePosition = some pos)
    (htr : globalTriples env s.ApproximateMountAlignment pos db.syncPoints =
      some ((a1, a2, a3), (p1, p2, p3)))
    (hc : calcTransformPair a1 a2 a3 p1 p2 p3 = some (M, Mi)) :
    (initialise env s db).1 = true ∧
    (initialise env s db).2.pActualToApparentTransform = M ∧
    (initialise env s db).2.pApparentToActualTransform = Mi ∧
    Matrix3.matMul3 Mi M = Matrix3.identity3 ∧
    Matrix3.det3 M ≠ 0 := by
  have hinv : Matrix3.invert3 M = some Mi := by
    unfold calcTransformPair at hc
    rcases hm : calcTransformMatrix a1 a2 a3 p1 p2 p3 with _ | M0
    · simp only [hm] at hc
      exact Option.noConfusion hc
    · simp only [hm] at hc
      rcases hi : Matrix3.invert3 M0 with _ | Mi0
      · simp only [hi] at hc
        exact Option.noConfusion hc
      · simp only [hi, Option.some.injEq, Prod.mk.injEq] at hc
        obtain ⟨rfl, rfl⟩ := hc
        exact hi
  obtain ⟨hmul, hdet⟩ := invert3_spec hinv
  have hdetM : Matrix3.det3 M ≠ 0 := hdet
  obtain ⟨pts, rp⟩ := db
  obtain rfl : rp = some pos := hpos
  dsimp only at htr
  rcases pts with _ | ⟨x1, _ | ⟨x2, _ | ⟨x3, _ | ⟨x4, t⟩⟩⟩⟩
  · exact absurd htr (by simp [globalTriples])
  · refine ⟨?_, ?_, ?_, hmul, hdetM⟩ <;>
      (simp only [initialise]
       try dsimp only
       rw [htr]
       try dsimp only
       rw [hc])
  · refine ⟨?_, ?_, ?_, hmul, hdetM⟩ <;>
      (simp only [initialise]
       try dsimp only
       rw [htr]
       try dsimp only
       rw [hc])
  · refine ⟨?_, ?_, ?_, hmul, hdetM⟩ <;>
      (simp only [initialise]
       try dsimp only
       rw [htr]
       try dsimp only
       rw [hc])
  · exact absurd htr (by simp [globalTriples])

end BasicMathPlugin

namespace BasicMathPlugin

/-- Witness for C8 (amended): one sync point at the pole hint; the
completed bases are orthonormal, the computed pair is the identity
matrix twice, and the inverse relation holds exactly. -/
theorem initialise_global_matrices_inverse_witness :
    db8w.referencePosition = some pos0 ∧
      globalTriples testEnv .NORTH_CELESTIAL_POLE pos0 db8w.syncPoints =
        some ((⟨1, 0, 0⟩, ⟨0, 0, 1⟩, ⟨0, -1, 0⟩), (⟨1, 0, 0⟩, ⟨0, 0, 1⟩, ⟨0, -1, 0⟩)) ∧
      calcTransformPair ⟨1, 0, 0⟩ ⟨0, 0, 1⟩ ⟨0, -1, 0⟩ ⟨1, 0, 0⟩ ⟨0, 0, 1⟩ ⟨0, -1, 0⟩ =
        some (Matrix3.identity3, Matrix3.identity3) ∧
      (initialise testEnv (initialState .NORTH_CELESTIAL_POLE) db8w).1 = true ∧
      (initialise testEnv (initialState .NORTH_CELESTIAL_POLE) db8w).2.pActualToApparentTransform
          = Matrix3.identity3 ∧
      (initialise testEnv (initialState .NORTH_CELESTIAL_POLE) db8w).2.pApparentToActualTransform
          = Matrix3.identity3 ∧
      Matrix3.matMul3 Matrix3.identity3 Matrix3.identity3 = Matrix3.identity3 ∧
      Matrix3.det3 Matrix3.identity3 ≠ 0 := by
  have h := initialise_global_matrices_inverse testEnv (initialState .NORTH_CELESTIAL_POLE)
    db8w pos0 ⟨1, 0, 0⟩ ⟨0, 0, 1⟩ ⟨0, -1, 0⟩ ⟨1, 0, 0⟩ ⟨0, 0, 1⟩ ⟨0, -1, 0⟩
    Matrix3.identity3 Matrix3.identity3 rfl
    (by with_unfolding_all decide) (by with_unfolding_all decide)
  exact ⟨rfl, by with_unfolding_all decide, by with_unfolding_all decide,
    h.1, h.2.1, h.2.2.1, h.2.2.2.1, h.2.2.2.2⟩

/-- Counterexample for C8 as stated: three identical sync points give a
singular triple; `Initialise` still returns true, yet the two global
matrices of the resulting state (the untouched zeroed allocations) are
not mutual inverses to within 1e-12, and the actual-to-apparent matrix
has determinant zero. -/
theorem initialise_global_matrices_counterexample :
    (initialise testEnv (initialState .NORTH_CELESTIAL_POLE) dbCollinear).1 = true ∧
      ¬ matrixApproxEq (1 / 10 ^ 12)
        (Matrix3.matMul3
          (initialise testEnv
            (initialState .NORTH_CELESTIAL_POLE) dbCollinear).2.pApparentToActualTransform
          (initialise testEnv
            (initialState .NORTH_CELESTIAL_POLE) dbCollinear).2.pActualToApparentTransform)
        Matrix3.identity3 ∧
      Matrix3.det3
        (initialise testEnv
          (initialState .NORTH_CELESTIAL_POLE) dbCollinear).2.pActualToApparentTransform = 0 := by
  refine ⟨?_, ?_, ?_⟩ <;> with_unfolding_all decide

end BasicMathPlugin

namespace BasicMathPlugin

/-- The matrix-loading pass over a face list: every facet whose three
labels are nonzero carries exactly the result of the per-facet
computation on its own vertex triple — which may be `none` when that
computation fails on a singular basis; skirt facets are left
unloaded. -/
theorem attachFacetMatrix_loaded (compute : Nat → Nat → Nat → Option Matrix3)
    (trs : List (Nat × Nat × Nat)) :
    ((trs.map (attachFacetMatrix compute)).all
      (fun f => f.isSkirt || decide (f.pMatrix = compute f.v0 f.v1 f.v2))) = true := by
  rw [List.all_eq_true]
  intro f hf
  obtain ⟨tr, htr, rfl⟩ := List.mem_map.mp hf
  rcases tr with ⟨i, j, k⟩
  by_cases hsk : i = 0 ∨ j = 0 ∨ k = 0
  · simp only [attachFacetMatrix, if_pos hsk, Facet.isSkirt]
    rcases hsk with h0 | h0 | h0 <;> simp [h0]
  · simp only [attachFacetMatrix, if_neg hsk, Facet.isSkirt]
    simp

/-- C7 (amended): after `Initialise` on four or more sync points with
the reference position set, `Initialise` returns true and the
facet-matrix computation is invoked for every facet of either hull
whose three vertex labels are all at least 1, each such facet carrying
exactly the result computed from its own vertex triple.  That result —
hence the facet's matrix — is non-null precisely when the facet's
source basis is nonsingular; a singular basis leaves that facet's
matrix null while `Initialise` still reports success (see the
counterexample), so non-nullness of every non-skirt matrix is not
guaranteed. -/
theorem initialise_loads_nonskirt_facets
    (env : Env) (s : BasicMathPluginState) (db : InMemoryDatabase)
    (pos : GeographicCoordinates)
    (hpos : db.referencePosition = some pos)
    (hn : 4 ≤ db.syncPoints.length) :
    (initialise env s db).1 = true ∧
    ((initialise env s db).2.ActualConvexHull.all
      (fun f => f.isSkirt || decide (f.pMatrix =
        actualFacetMatrix (db.syncPoints.map
            (actualDirectionCosineOfEntry env s.ApproximateMountAlignment pos))
          db.syncPoints f.v0 f.v1 f.v2))) = true ∧
    ((initialise env s db).2.ApparentConvexHull.all
      (fun f => f.isSkirt || decide (f.pMatrix =
        apparentFacetMatrix (db.syncPoints.map
            (actualDirectionCosineOfEntry env s.ApproximateMountAlignment pos))
          db.syncPoints f.v0 f.v1 f.v2))) = true := by
  obtain ⟨pts, rp⟩ := db
  obtain rfl : rp = some pos := hpos
  dsimp only at hn ⊢
  rcases pts with _ | ⟨x1, _ | ⟨x2, _ | ⟨x3, _ | ⟨x4, t⟩⟩⟩⟩
  · simp at hn
  · simp at hn
  · simp at hn
  · simp at hn
  · exact ⟨rfl, attachFacetMatrix_loaded _ _, attachFacetMatrix_loaded _ _⟩

end BasicMathPlugin

namespace BasicMathPlugin

/-- Witness for C7 (amended): four sync points, a hull library returning
one non-skirt facet (labels 1,2,3) and one skirt facet; every non-skirt
facet of either hull carries exactly its computed matrix. -/
theorem initialise_loads_nonskirt_facets_witness :
    db7.referencePosition = some pos0 ∧
      4 ≤ db7.syncPoints.length ∧
      (initialise env7 (initialState .NORTH_CELESTIAL_POLE) db7).1 = true ∧
      ((initialise env7 (initialState .NORTH_CELESTIAL_POLE) db7).2.ActualConvexHull.all
        (fun f => f.isSkirt || decide (f.pMatrix =
          actualFacetMatrix (db7.syncPoints.map
              (actualDirectionCosineOfEntry env7 .NORTH_CELESTIAL_POLE pos0))
            db7.syncPoints f.v0 f.v1 f.v2))) = true ∧
      ((initialise env7 (initialState .NORTH_CELESTIAL_POLE) db7).2.ApparentConvexHull.all
        (fun f => f.isSkirt || decide (f.pMatrix =
          apparentFacetMatrix (db7.syncPoints.map
              (actualDirectionCosineOfEntry env7 .NORTH_CELESTIAL_POLE pos0))
            db7.syncPoints f.v0 f.v1 f.v2))) = true := by
  have h := initialise_loads_nonskirt_facets env7 (initialState .NORTH_CELESTIAL_POLE)
    db7 pos0 rfl (by with_unfolding_all decide)
  exact ⟨rfl, by with_unfolding_all decide, h.1, h.2.1, h.2.2⟩

/-- Counterexample for C7 as stated: four sync points whose first three
actual direction cosines coincide give the actual hull's only non-skirt
facet a singular source basis; `Initialise` returns true, that facet
sits in the actual hull with a null matrix, and so not every non-skirt
facet of the actual hull has a non-null matrix. -/
theorem initialise_loads_nonskirt_facets_counterexample :
    db7cx.referencePosition = some pos0 ∧
      4 ≤ db7cx.syncPoints.length ∧
      (initialise env7 (initialState .NORTH_CELESTIAL_POLE) db7cx).1 = true ∧
      (⟨1, 2, 3, none⟩ : Facet) ∈
        (initialise env7 (initialState .NORTH_CELESTIAL_POLE) db7cx).2.ActualConvexHull ∧
      ¬ (((initialise env7
            (initialState .NORTH_CELESTIAL_POLE) db7cx).2.ActualConvexHull.all
          (fun f => f.isSkirt || f.pMatrix.isSome)) = true) := by
  refine ⟨rfl, ?_, ?_, ?_, ?_⟩ <;> with_unfolding_all decide

end BasicMathPlugin
